import Mathlib

/-!
Verification of the SwiftShot interactive capture-target selector.

Shallow embedding of the Region Selector (`overlay.py`), the Window Picker
and Rectangle Animator (`window_picker.py`), and the orchestrator's
mode-switch protocol (`app.py`), with theorems settling the spec claims.

Qt geometry is embedded with Qt5's exact integer-rectangle semantics:
a `QRect` stores its two corners `x1, y1, x2, y2`, its reported width is
`x2 - x1 + 1`, and `normalized`, `contains` follow the Qt5 sources.
-/

namespace SwiftShot

/-- Qt `QPoint`: an integer point. -/
structure QPoint where
  x : Int
  y : Int
deriving DecidableEq, Repr

/-- Qt `QRect`, stored as its two corners, exactly as Qt5 does internally.
`QRect(x, y, w, h)` stores `x1 = x, y1 = y, x2 = x + w - 1, y2 = y + h - 1`. -/
structure QRect where
  x1 : Int
  y1 : Int
  x2 : Int
  y2 : Int
deriving DecidableEq, Repr

namespace QRect

/-- The Qt constructor `QRect(x, y, w, h)`. -/
def mkXYWH (x y w h : Int) : QRect := ⟨x, y, x + w - 1, y + h - 1⟩

/-- The Qt constructor `QRect(topLeft, bottomRight)` from two `QPoint`s. -/
def fromPoints (tl br : QPoint) : QRect := ⟨tl.x, tl.y, br.x, br.y⟩

/-- The default-constructed `QRect()`: corners `(0,0)` and `(-1,-1)`. -/
def null : QRect := ⟨0, 0, -1, -1⟩

/-- Qt `QRect::width()`: `x2 - x1 + 1`. -/
def width (r : QRect) : Int := r.x2 - r.x1 + 1

/-- Qt `QRect::height()`: `y2 - y1 + 1`. -/
def height (r : QRect) : Int := r.y2 - r.y1 + 1

/-- Qt `QRect::isEmpty()`: `x1 > x2 || y1 > y2`. -/
def isEmpty (r : QRect) : Bool := r.x1 > r.x2 || r.y1 > r.y2

/-- Qt `QRect::normalized()`: swaps a corner pair only when
`x2 < x1 - 1` (resp. `y2 < y1 - 1`), exactly as in Qt5's `qrect.cpp`. -/
def normalized (r : QRect) : QRect :=
  let p1 := if r.x2 < r.x1 - 1 then (r.x2, r.x1) else (r.x1, r.x2)
  let p2 := if r.y2 < r.y1 - 1 then (r.y2, r.y1) else (r.y1, r.y2)
  ⟨p1.1, p2.1, p1.2, p2.2⟩

/-- Qt `QRect::contains(QPoint)` (non-proper), from Qt5's `qrect.cpp`:
each axis first resolves its low/high bound with the same swap test as
`normalized`, then checks inclusively. -/
def containsPt (r : QRect) (px py : Int) : Bool :=
  let lr := if r.x2 < r.x1 - 1 then (r.x2, r.x1) else (r.x1, r.x2)
  let tb := if r.y2 < r.y1 - 1 then (r.y2, r.y1) else (r.y1, r.y2)
  !(px < lr.1 || px > lr.2) && !(py < tb.1 || py > tb.2)

/-- Translation of a rectangle by an offset (used only to state the spec's
"add the Snapshot's origin offset" translation; the code has no such step). -/
def translated (r : QRect) (dx dy : Int) : QRect :=
  ⟨r.x1 + dx, r.y1 + dy, r.x2 + dx, r.y2 + dy⟩

end QRect

/-! ## Region Selector (`overlay.py`, class `RegionSelector`)

Embedding of the rectangle-mode selection state machine: the fields of
`RegionSelector` that the mouse handlers read and write, and the handlers
`_snap_point`, `mousePressEvent` (left button), `mouseMoveEvent`,
`mouseReleaseEvent` (left button). Painting, the magnifier, color readout
and the freehand mode are not needed by any claim about rectangle drags. -/

/-- Python `RegionSelector.SNAP_DISTANCE = 8`. -/
def SNAP_DISTANCE : Int := 8

/-- The `for edge in edges: if abs(c - edge) <= SNAP_DISTANCE: ...; break`
scan inside `_snap_point`: first list entry within tolerance, if any. -/
def snapScan (edges : List Int) (c : Int) : Option Int :=
  match edges with
  | [] => none
  | e :: rest => if (c - e).natAbs ≤ 8 then some e else snapScan rest c

/-- The mutable state of a `RegionSelector` in rectangle mode. -/
structure RegionState where
  selecting : Bool
  start_pos : QPoint
  end_pos : QPoint
  current_pos : QPoint
  snap_enabled : Bool
  /-- Field `_snap_edges_v`: sorted x coordinates of window edges. -/
  snap_edges_v : List Int
  /-- Field `_snap_edges_h`: sorted y coordinates of window edges. -/
  snap_edges_h : List Int
deriving Repr

/-- Python `RegionSelector._snap_point`: when snapping is enabled, snap each axis
independently to the first edge within `SNAP_DISTANCE`; otherwise return
the position unchanged. (The `_snapped_x/_snapped_y` guide bookkeeping is
visual-only and omitted.) -/
def snapPoint (st : RegionState) (pos : QPoint) : QPoint :=
  if !st.snap_enabled then pos
  else
    let sx := (snapScan st.snap_edges_v pos.x).getD pos.x
    let sy := (snapScan st.snap_edges_h pos.y).getD pos.y
    ⟨sx, sy⟩

/-- Terminal events a `RegionSelector` can emit. -/
inductive RegionEvent where
  | regionSelected (r : QRect)
  | cancelledEvent
  | switchToWindow
deriving DecidableEq, Repr

/-- Observable actions performed by a `RegionSelector` handler, in order. -/
inductive RSAction where
  | hideSurface
  | deferEmit (delayMs : Nat) (e : RegionEvent)
deriving DecidableEq, Repr

/-- Python `mousePressEvent`, left button, rectangle mode: enter `Selecting`,
snap the press position once and store it as both endpoints. -/
def mousePressLeft (st : RegionState) (p : QPoint) : RegionState :=
  let pos := snapPoint st p
  { st with selecting := true, start_pos := pos, end_pos := pos }

/-- Python `mouseMoveEvent`, rectangle mode: update `current_pos`; while selecting,
re-snap only the moving endpoint `end_pos`; otherwise just run the snap
test for the visual guides (no selection state changes). -/
def mouseMove (st : RegionState) (p : QPoint) : RegionState :=
  let st1 := { st with current_pos := p }
  if st1.selecting then { st1 with end_pos := snapPoint st1 p } else st1

/-- Python `mouseReleaseEvent`, left button, rectangle mode, while selecting:
snap the release position, normalize the corner rectangle, and either
confirm (width and height above the 2 px threshold) or cancel.  Both
outcomes hide the overlay first and emit the event 50 ms deferred. -/
def mouseReleaseLeft (st : RegionState) (p : QPoint) :
    RegionState × List RSAction :=
  let st1 := { st with selecting := false, end_pos := snapPoint st p }
  let selection := (QRect.fromPoints st1.start_pos st1.end_pos).normalized
  if selection.width > 2 ∧ selection.height > 2 then
    (st1, [RSAction.hideSurface,
           RSAction.deferEmit 50 (RegionEvent.regionSelected selection)])
  else
    (st1, [RSAction.hideSurface,
           RSAction.deferEmit 50 RegionEvent.cancelledEvent])

/-! ## Rectangle Animator (`window_picker.py`, class `RectAnimator`)

Pure interpolation engine. Python arithmetic on wall-clock floats is
embedded over `ℚ`; times are in seconds, and the external clock reading
`time.monotonic()` is passed in as an explicit `now` argument. -/

/-- Qt `QRectF`: a rectangle with position and size, here over `ℚ`
(`QRectF(r : QRect)` copies `x(), y(), width(), height()` verbatim). -/
structure QRectF where
  x : ℚ
  y : ℚ
  w : ℚ
  h : ℚ
deriving DecidableEq, Repr

/-- Qt `QRectF::isEmpty()`: `w <= 0 || h <= 0`. -/
def QRectF.isEmptyF (r : QRectF) : Bool := r.w ≤ 0 || r.h ≤ 0

/-- The default-constructed `QRectF()`: all fields zero. -/
def QRectF.nullF : QRectF := ⟨0, 0, 0, 0⟩

/-- Qt `QRectF(QRect)`: converts an integer rect keeping `x, y, width, height`. -/
def QRect.toF (r : QRect) : QRectF :=
  ⟨(r.x1 : ℚ), (r.y1 : ℚ), (r.width : ℚ), (r.height : ℚ)⟩

/-- Python `RectAnimator` state: durations and times in seconds. -/
structure RectAnimator where
  duration : ℚ
  start_rect : QRectF
  end_rect : QRectF
  current_rect : QRectF
  start_time : ℚ
  active : Bool
deriving DecidableEq, Repr

namespace RectAnimator

/-- Python `RectAnimator.__init__(duration_ms)`: all rects default `QRectF()`,
`duration = duration_ms / 1000`, inactive. -/
def init (duration_ms : ℚ) : RectAnimator :=
  ⟨duration_ms / 1000, QRectF.nullF, QRectF.nullF, QRectF.nullF, 0, false⟩

/-- Python `RectAnimator._quintic_ease_out(t) = (t-1)^5 + 1`. -/
def quintic_ease_out (t : ℚ) : ℚ :=
  let s := t - 1
  s * s * s * s * s + 1

/-- Python `RectAnimator.animate_to(target)`: if the current rect is still empty,
initialize `current` and `end` to the target without activating; if the
target equals the current end, do nothing; otherwise restart the animation
from the current rect. -/
def animate_to (a : RectAnimator) (target : QRectF) (now : ℚ) : RectAnimator :=
  if a.current_rect.isEmptyF then
    { a with current_rect := target, end_rect := target }
  else if target = a.end_rect then a
  else
    { a with start_rect := a.current_rect, end_rect := target,
             start_time := now, active := true }

/-- Python `RectAnimator.animate_from_cursor(cursor_pos, target)`: zero-size start
rect at the cursor. -/
def animate_from_cursor (a : RectAnimator) (cursor : QPoint) (target : QRectF)
    (now : ℚ) : RectAnimator :=
  { a with start_rect := ⟨(cursor.x : ℚ), (cursor.y : ℚ), 0, 0⟩,
           end_rect := target,
           current_rect := ⟨(cursor.x : ℚ), (cursor.y : ℚ), 0, 0⟩,
           start_time := now, active := true }

/-- Python `RectAnimator.tick()`: no-op returning `False` when inactive; otherwise
interpolate each field with the eased progress of
`t = min(1, elapsed / duration)`, snap exactly to the end rect and
deactivate once `t >= 1`, and return `True` (repaint needed). -/
def tick (a : RectAnimator) (now : ℚ) : RectAnimator × Bool :=
  if !a.active then (a, false)
  else
    let elapsed := now - a.start_time
    let t := min 1 (elapsed / a.duration)
    let e := quintic_ease_out t
    let cx := a.start_rect.x + (a.end_rect.x - a.start_rect.x) * e
    let cy := a.start_rect.y + (a.end_rect.y - a.start_rect.y) * e
    let cw := a.start_rect.w + (a.end_rect.w - a.start_rect.w) * e
    let ch := a.start_rect.h + (a.end_rect.h - a.start_rect.h) * e
    let a1 := { a with current_rect := ⟨cx, cy, cw, ch⟩ }
    if 1 ≤ t then
      ({ a1 with active := false, current_rect := a1.end_rect }, true)
    else (a1, true)

end RectAnimator

/-! ## Window Picker (`window_picker.py`, class `WindowPicker`)

The Window Hierarchy Source (Win32 `EnumWindows` / `GetWindow` /
`DwmGetWindowAttribute`) is an external collaborator, modelled as an
oracle `Hier`: `children parent` is the ordered list of visible direct
children (the `GetWindow(GW_CHILD)` / `GW_HWNDNEXT` chain restricted to
`IsWindowVisible`, so every listed handle is nonzero), and `winRect h` is
`_get_win_rect(h)`.  The child cache (a Python dict) is an association
list; the drill stack grows at the Python list's end, modelled here with
the list head as the stack top. -/

/-- A window handle paired with its screen-space rectangle. -/
abbrev WinNode := Nat × QRect

/-- Oracle for the host window hierarchy. -/
structure Hier where
  children : Nat → List WinNode
  winRect : Nat → QRect

/-- Dict lookup `parent in self._child_cache` / `self._child_cache[parent]`. -/
def cacheLookup (c : List (Nat × List WinNode)) (k : Nat) :
    Option (List WinNode) :=
  (c.find? (fun kv => kv.1 = k)).map Prod.snd

/-- Dict removal `self._child_cache.pop(parent, None)`. -/
def cacheRemove (c : List (Nat × List WinNode)) (k : Nat) :
    List (Nat × List WinNode) :=
  c.filter (fun kv => kv.1 ≠ k)

/-- The `WindowPicker` state read and written by hit-testing and drilling. -/
structure PickerState where
  top_windows : List WinNode
  child_cache : List (Nat × List WinNode)
  /-- Drill stack; head is the Python list's last element (the top). -/
  parent_stack : List Nat
  current_hwnd : Nat
  current_rect : QRect
  first_highlight : Bool
  animator : RectAnimator
  current_pos : QPoint
  /-- Field `_desktop_offset`: virtual-desktop origin of the overlay surface. -/
  desktop_offset : QPoint

namespace PickerState

/-- Python `WindowPicker._to_display`: screen rect to overlay-local rect by
subtracting the desktop offset. -/
def to_display (st : PickerState) (r : QRect) : QRect :=
  QRect.mkXYWH (r.x1 - st.desktop_offset.x) (r.y1 - st.desktop_offset.y)
    r.width r.height

/-- Python `WindowPicker._enum_direct_children`: return the cached list when
present; otherwise walk the hierarchy source, keep children with both
dimensions above 2 px, cache and return them.  The returned flag records
whether the OS enumeration ran. -/
def enum_direct_children (h : Hier) (st : PickerState) (parent : Nat) :
    List WinNode × PickerState × Bool :=
  match cacheLookup st.child_cache parent with
  | some cs => (cs, st, false)
  | none =>
    let cs := (h.children parent).filter
      (fun c => c.2.width > 2 && c.2.height > 2)
    (cs, { st with child_cache := (parent, cs) :: st.child_cache }, true)

/-- Python `WindowPicker._find_window_at`: at the root level, the first top-level
node containing the point, else `(0, QRect())`; at a child level, the
first cached/enumerated child containing the point, falling back to the
parent with its freshly fetched rect. -/
def find_window_at (h : Hier) (st : PickerState) (sx sy : Int) :
    (Nat × QRect) × PickerState × Bool :=
  match st.parent_stack with
  | [] =>
    match st.top_windows.find? (fun nr => nr.2.containsPt sx sy) with
    | some nr => (nr, st, false)
    | none => ((0, QRect.null), st, false)
  | parent :: _ =>
    let ecr := enum_direct_children h st parent
    match ecr.1.find? (fun nr => nr.2.containsPt sx sy) with
    | some nr => (nr, ecr.2.1, ecr.2.2)
    | none => ((parent, h.winRect parent), ecr.2.1, ecr.2.2)

/-- Python `WindowPicker._update_highlight`: hit-test at the pointer's screen
position; a hit with a positive-width rect retargets the highlight (from
the cursor on the first highlight of a level, smoothly otherwise); a miss
at root level clears the highlight. -/
def update_highlight (h : Hier) (now : ℚ) (st : PickerState) : PickerState :=
  let sx := st.current_pos.x + st.desktop_offset.x
  let sy := st.current_pos.y + st.desktop_offset.y
  let fr := find_window_at h st sx sy
  let hwnd := fr.1.1
  let screen_rect := fr.1.2
  let st1 := fr.2.1
  if hwnd ≠ 0 ∧ screen_rect.width > 0 then
    if hwnd ≠ st1.current_hwnd then
      let disp := (st1.to_display screen_rect).toF
      let anim :=
        if st1.first_highlight then
          st1.animator.animate_from_cursor st1.current_pos disp now
        else st1.animator.animate_to disp now
      { st1 with current_hwnd := hwnd, current_rect := screen_rect,
                 animator := anim,
                 first_highlight := false }
    else st1
  else if hwnd = 0 then
    { st1 with current_hwnd := 0, current_rect := QRect.null }
  else st1

/-- Python `WindowPicker._page_down`: with a current highlight whose child list is
non-empty, push it on the drill stack, clear the highlight, mark the next
highlight as first-of-level and re-run hit-testing. -/
def page_down (h : Hier) (now : ℚ) (st : PickerState) : PickerState :=
  if st.current_hwnd = 0 then st
  else
    let ecr := enum_direct_children h st st.current_hwnd
    if ecr.1 ≠ [] then
      update_highlight h now
        { ecr.2.1 with parent_stack := st.current_hwnd :: ecr.2.1.parent_stack,
                       current_hwnd := 0,
                       first_highlight := true }
    else ecr.2.1

/-- Python `WindowPicker._page_up`: no-op at root; otherwise pop the drill stack,
evict the popped parent's cached children, clear the highlight, mark the
next highlight as first-of-level and re-run hit-testing. -/
def page_up (h : Hier) (now : ℚ) (st : PickerState) : PickerState :=
  match st.parent_stack with
  | [] => st
  | parent :: rest =>
    update_highlight h now
      { st with parent_stack := rest,
                child_cache := cacheRemove st.child_cache parent,
                current_hwnd := 0,
                first_highlight := true }

end PickerState

/-! ## Window Picker terminal transitions (`window_picker.py`,
`mousePressEvent` / `keyPressEvent`)

The observable side effects of the input handlers are modelled as ordered
action lists: stopping the ~60 Hz animation timer, hiding the overlay
surface, emitting an event through a `QTimer.singleShot(delay, ...)`
(deferred), or emitting synchronously. -/

/-- Terminal-like events a `WindowPicker` can emit. -/
inductive PickerEvent where
  | elementSelected (r : QRect)
  | cancelledEvent
  | switchToRegion
deriving DecidableEq, Repr

/-- Observable actions of a `WindowPicker` input handler, in order. -/
inductive PickerAction where
  | stopTimer
  | hideSurface
  | deferEmit (delayMs : Nat) (e : PickerEvent)
  | emitNow (e : PickerEvent)
deriving DecidableEq, Repr

/-- Mouse buttons distinguished by the handlers. -/
inductive MouseButton where
  | leftButton
  | rightButton
deriving DecidableEq, Repr

/-- The keys handled by `WindowPicker.keyPressEvent` that produce actions
(drilling, magnifier and cursor nudging mutate only internal state). -/
inductive PickerKey where
  | keyEscape
  | keyReturnOrEnter
  | keySpace
deriving DecidableEq, Repr

/-- Python `WindowPicker.mousePressEvent` observable actions, given the handler's
guard input `self._current_rect.isEmpty()` and the already-translated
`result_rect = self._to_display(self._current_rect)`. -/
def pickerMousePressActions (btn : MouseButton) (currentRectEmpty : Bool)
    (resultRect : QRect) : List PickerAction :=
  match btn with
  | MouseButton.leftButton =>
    if currentRectEmpty then []
    else [PickerAction.stopTimer, PickerAction.hideSurface,
          PickerAction.deferEmit 50 (PickerEvent.elementSelected resultRect)]
  | MouseButton.rightButton =>
    [PickerAction.stopTimer, PickerAction.hideSurface,
     PickerAction.deferEmit 50 PickerEvent.cancelledEvent]

/-- Python `WindowPicker.keyPressEvent` observable actions for Escape,
Return/Enter and Space. -/
def pickerKeyPressActions (key : PickerKey) (currentRectEmpty : Bool)
    (resultRect : QRect) : List PickerAction :=
  match key with
  | PickerKey.keyEscape =>
    [PickerAction.stopTimer, PickerAction.hideSurface,
     PickerAction.deferEmit 50 PickerEvent.cancelledEvent]
  | PickerKey.keyReturnOrEnter =>
    if currentRectEmpty then []
    else [PickerAction.stopTimer, PickerAction.hideSurface,
          PickerAction.deferEmit 50 (PickerEvent.elementSelected resultRect)]
  | PickerKey.keySpace =>
    [PickerAction.stopTimer, PickerAction.emitNow PickerEvent.switchToRegion]

/-! ## Orchestrator mode-switch protocol (`app.py`, class `SwiftShotApp`)

A capture session's externally visible calls are modelled as a trace of
actions.  Snapshots are identified by an id; `_start_region_overlay`
calls `CaptureManager.capture_fullscreen()` and hands the result to the
overlay it constructs, while both `_switch_to_window_mode` and
`_switch_to_region_mode` construct the next overlay over the snapshot
their closures captured, without any further capture call. -/

/-- Observable orchestrator actions. -/
inductive OrchAction where
  | captureFullscreen
  | constructRegionSelector (snap : Nat)
  | constructWindowPicker (snap : Nat)
  | closeOverlay
  | closeWindowPicker
  | showOverlay
deriving DecidableEq, Repr

/-- Python `SwiftShotApp._start_region_overlay` after a successful capture:
capture, construct the Region Selector over the captured snapshot, show. -/
def start_region_overlay (snap : Nat) : List OrchAction :=
  [OrchAction.captureFullscreen, OrchAction.constructRegionSelector snap,
   OrchAction.showOverlay]

/-- Python `SwiftShotApp._start_window_picker(full_screenshot)`: close any previous
picker, construct a picker over the given snapshot, show. -/
def start_window_picker (snap : Nat) : List OrchAction :=
  [OrchAction.closeWindowPicker, OrchAction.constructWindowPicker snap,
   OrchAction.showOverlay]

/-- Python `SwiftShotApp._switch_to_window_mode(full_screenshot)`: close the region
overlay, then (deferred 50 ms) start the picker over the same snapshot. -/
def switch_to_window_mode (snap : Nat) : List OrchAction :=
  OrchAction.closeOverlay :: start_window_picker snap

/-- Python `SwiftShotApp._switch_to_region_mode(full_screenshot)`: close the
picker, construct a Region Selector over the same snapshot, show
(deferred 50 ms). -/
def switch_to_region_mode (snap : Nat) : List OrchAction :=
  [OrchAction.closeWindowPicker, OrchAction.constructRegionSelector snap,
   OrchAction.showOverlay]

/-- A full round trip Region → Window → Region, as wired by the signal
connections in `_start_region_overlay` / `_start_window_picker` (each
switch lambda closes over the session's one snapshot). -/
def modeSwitchRound (snap : Nat) : List OrchAction :=
  switch_to_window_mode snap ++ switch_to_region_mode snap

/-- A session trace: one region capture start followed by `n` full mode
round trips. -/
def sessionTrace (snap : Nat) : Nat → List OrchAction
  | 0 => start_region_overlay snap
  | n + 1 => sessionTrace snap n ++ modeSwitchRound snap

/-- Number of `captureSnapshot` calls in a trace. -/
def captureCount (tr : List OrchAction) : Nat :=
  (tr.filter (fun a => a = OrchAction.captureFullscreen)).length

/-- The snapshot id an overlay-constructing action hands over, if any. -/
def constructedSnap (a : OrchAction) : Option Nat :=
  match a with
  | OrchAction.constructRegionSelector s => some s
  | OrchAction.constructWindowPicker s => some s
  | _ => none

/-! ## Spec-side definitions

These two definitions follow the spec's words, for comparison with the
code-side definitions above. -/

/-- Stated from the spec: `query(axis, coordinate)` returns the first
stored value within tolerance (8 px), or the coordinate unchanged when no
entry is within tolerance. -/
def axisFirstWithin (edges : List Int) (c : Int) : Int :=
  match edges.find? (fun e => (c - e).natAbs ≤ 8) with
  | some e => e
  | none => c

/-- Stated from the spec: the selection rectangle "translated to
virtual-desktop coordinates by adding the Snapshot's origin offset". -/
def specVirtualDesktopEmission (origin : QPoint) (localRect : QRect) : QRect :=
  localRect.translated origin.x origin.y

/-- Stated from the spec: `t`, elapsed-time over duration clamped to `[0, 1]`. -/
def specClampedT (elapsed duration : ℚ) : ℚ :=
  min 1 (max 0 (elapsed / duration))

/-- Stated from the spec: the eased progress `1 − (1 − t)^5`. -/
def specEasedProgress (elapsed duration : ℚ) : ℚ :=
  1 - (1 - specClampedT elapsed duration) ^ 5

/-- Stated from the spec: each rectangle edge (x, y, width, height)
linearly interpolated independently by a progress value. -/
def specLerpRect (s e : QRectF) (p : ℚ) : QRectF :=
  ⟨s.x + (e.x - s.x) * p, s.y + (e.y - s.y) * p,
   s.w + (e.w - s.w) * p, s.h + (e.h - s.h) * p⟩

/-! ## Concrete instances used by witnesses -/

/-- A selector state with no snap edges, mid-drag anchored at `(10, 10)`. -/
def demoRegionState : RegionState :=
  { selecting := true, start_pos := ⟨10, 10⟩, end_pos := ⟨10, 10⟩,
    current_pos := ⟨10, 10⟩, snap_enabled := true,
    snap_edges_v := [], snap_edges_h := [] }

/-- An idle selector state with one vertical snap edge at `x = 100`. -/
def snapRegionState : RegionState :=
  { selecting := false, start_pos := ⟨0, 0⟩, end_pos := ⟨0, 0⟩,
    current_pos := ⟨0, 0⟩, snap_enabled := true,
    snap_edges_v := [100], snap_edges_h := [] }

/-- An idle selector state with no snap edges at all. -/
def plainRegionState : RegionState :=
  { selecting := false, start_pos := ⟨0, 0⟩, end_pos := ⟨0, 0⟩,
    current_pos := ⟨0, 0⟩, snap_enabled := true,
    snap_edges_v := [], snap_edges_h := [] }

/-- The scenario selector state for arbitrary snap-edge lists. -/
def scenarioRegionState (ev eh : List Int) : RegionState :=
  { selecting := false, start_pos := ⟨0, 0⟩, end_pos := ⟨0, 0⟩,
    current_pos := ⟨0, 0⟩, snap_enabled := true,
    snap_edges_v := ev, snap_edges_h := eh }

/-- Two demo child windows side by side inside window 1. -/
def demoChildren : List WinNode :=
  [(11, QRect.mkXYWH 0 0 50 50), (12, QRect.mkXYWH 50 0 50 50)]

/-- A two-level demo hierarchy: window 1 spans `(0,0)-(99,99)` and has two
children side by side. -/
def demoHier : Hier :=
  { children := fun p => if p = 1 then demoChildren else [],
    winRect := fun p => if p = 1 then QRect.mkXYWH 0 0 100 100 else QRect.null }

/-- A root-level picker state over `demoHier` with the cursor at `(10, 10)`. -/
def demoPickerState : PickerState :=
  { top_windows := [(1, QRect.mkXYWH 0 0 100 100)],
    child_cache := [], parent_stack := [], current_hwnd := 0,
    current_rect := QRect.null, first_highlight := true,
    animator := RectAnimator.init 700, current_pos := ⟨10, 10⟩,
    desktop_offset := ⟨0, 0⟩ }

/-- The picker after drilling into window 1: its children are cached and
child 11 is highlighted. -/
def demoDrilledState : PickerState :=
  { demoPickerState with
      parent_stack := [1],
      child_cache := [(1, demoChildren)],
      current_hwnd := 11,
      current_rect := QRect.mkXYWH 0 0 50 50,
      first_highlight := false }

/-- The drilled picker with the cursor outside every cached child (and
outside the parent as well). -/
def demoFallbackState : PickerState :=
  { demoDrilledState with current_pos := ⟨200, 200⟩ }

/-- The root-level picker with the cursor outside every top-level node. -/
def demoMissState : PickerState :=
  { demoPickerState with current_pos := ⟨500, 500⟩ }

/-- The animator state of the spec's Rectangle Animator test vector. -/
def demoAnimator : RectAnimator :=
  { duration := 7/10, start_rect := ⟨0, 0, 0, 0⟩,
    end_rect := ⟨10, 10, 100, 100⟩, current_rect := ⟨0, 0, 0, 0⟩,
    start_time := 0, active := true }

/-! ## Helper lemmas -/

theorem snapScan_eq_find (edges : List Int) (c : Int) :
    snapScan edges c = edges.find? (fun e => (c - e).natAbs ≤ 8) := by
  induction edges with
  | nil => rfl
  | cons e rest ih =>
    by_cases h : (c - e).natAbs ≤ 8
    · simp [snapScan, List.find?, h]
    · simp [snapScan, List.find?, h, ih]

theorem snapScan_dist (edges : List Int) (c : Int) :
    (((snapScan edges c).getD c) - c).natAbs ≤ 8 := by
  induction edges with
  | nil => simp [snapScan]
  | cons e rest ih =>
    by_cases h : (c - e).natAbs ≤ 8
    · simp only [snapScan, if_pos h, Option.getD_some]
      omega
    · simpa [snapScan, if_neg h] using ih

theorem snapPoint_dist (st : RegionState) (p : QPoint) :
    ((snapPoint st p).x - p.x).natAbs ≤ 8 ∧
    ((snapPoint st p).y - p.y).natAbs ≤ 8 := by
  unfold snapPoint
  by_cases h : st.snap_enabled
  · simp only [h, Bool.not_true, Bool.false_eq_true, if_false]
    exact ⟨snapScan_dist _ _, snapScan_dist _ _⟩
  · simp only [Bool.not_eq_true] at h
    simp [h]

theorem normalized_fromPoints_minmax (a b : QPoint)
    (hx : 2 ≤ (b.x - a.x).natAbs) (hy : 2 ≤ (b.y - a.y).natAbs) :
    (QRect.fromPoints a b).normalized =
      ⟨min a.x b.x, min a.y b.y, max a.x b.x, max a.y b.y⟩ := by
  unfold QRect.fromPoints QRect.normalized
  split_ifs with h1 h2 h2 <;> simp_all <;> constructor <;> try constructor
  all_goals omega

theorem normalized_fromPoints_size (a b : QPoint) :
    ((QRect.fromPoints a b).normalized.width > 2 ∧
     (QRect.fromPoints a b).normalized.height > 2) ↔
      (2 ≤ (b.x - a.x).natAbs ∧ 2 ≤ (b.y - a.y).natAbs) := by
  unfold QRect.fromPoints QRect.normalized QRect.width QRect.height
  split_ifs <;> simp_all <;> omega

/-- Full case analysis of the left-button release in rectangle mode:
confirm with the min/max-corner rectangle of the anchor and the snapped
release point when both deltas reach 2 px, cancel otherwise. -/
theorem mouseReleaseLeft_cases (st : RegionState) (p : QPoint) :
    (2 ≤ ((snapPoint st p).x - st.start_pos.x).natAbs ∧
     2 ≤ ((snapPoint st p).y - st.start_pos.y).natAbs →
      (mouseReleaseLeft st p).2 =
        [RSAction.hideSurface,
         RSAction.deferEmit 50 (RegionEvent.regionSelected
           ⟨min st.start_pos.x (snapPoint st p).x,
            min st.start_pos.y (snapPoint st p).y,
            max st.start_pos.x (snapPoint st p).x,
            max st.start_pos.y (snapPoint st p).y⟩)]) ∧
    (((snapPoint st p).x - st.start_pos.x).natAbs < 2 ∨
     ((snapPoint st p).y - st.start_pos.y).natAbs < 2 →
      (mouseReleaseLeft st p).2 =
        [RSAction.hideSurface,
         RSAction.deferEmit 50 RegionEvent.cancelledEvent]) := by
  have hsz := normalized_fromPoints_size st.start_pos (snapPoint st p)
  constructor
  · intro h
    have hc := hsz.mpr h
    simp only [mouseReleaseLeft]
    rw [if_pos hc]
    simp [normalized_fromPoints_minmax st.start_pos (snapPoint st p) h.1 h.2]
  · intro h
    have hc : ¬((QRect.fromPoints st.start_pos (snapPoint st p)).normalized.width > 2 ∧
        (QRect.fromPoints st.start_pos (snapPoint st p)).normalized.height > 2) := by
      intro hcontra
      have := hsz.mp hcontra
      omega
    simp only [mouseReleaseLeft]
    rw [if_neg hc]

theorem snapScan_getD_eq_axisFirstWithin (edges : List Int) (c : Int) :
    (snapScan edges c).getD c = axisFirstWithin edges c := by
  rw [snapScan_eq_find]
  unfold axisFirstWithin
  cases edges.find? (fun e => (c - e).natAbs ≤ 8) <;> rfl

theorem mouseMove_start_pos (st : RegionState) (q : QPoint) :
    (mouseMove st q).start_pos = st.start_pos := by
  unfold mouseMove
  by_cases h : st.selecting = true <;> simp [h]

theorem foldl_mouseMove_start_pos (moves : List QPoint) (st : RegionState) :
    (moves.foldl mouseMove st).start_pos = st.start_pos := by
  induction moves generalizing st with
  | nil => rfl
  | cons q rest ih =>
    rw [List.foldl_cons, ih, mouseMove_start_pos]

/-! ## Claim theorems -/

/-- C2: releasing a rectangle-mode drag whose snapped deltas both reach
2 px yields Confirmed, hiding the overlay and emitting (deferred) the
normalized rectangle spanning exactly the anchor and the snapped release
point; a drag with either delta below 2 px yields Cancelled (the
cancelled event is emitted and no selection), so a degenerate selection
is an implicit cancel rather than an error. -/
theorem c2_release_confirm_iff_min_size (st : RegionState) (p : QPoint) :
    (2 ≤ ((snapPoint st p).x - st.start_pos.x).natAbs ∧
     2 ≤ ((snapPoint st p).y - st.start_pos.y).natAbs →
      (mouseReleaseLeft st p).2 =
        [RSAction.hideSurface,
         RSAction.deferEmit 50 (RegionEvent.regionSelected
           ⟨min st.start_pos.x (snapPoint st p).x,
            min st.start_pos.y (snapPoint st p).y,
            max st.start_pos.x (snapPoint st p).x,
            max st.start_pos.y (snapPoint st p).y⟩)]) ∧
    (((snapPoint st p).x - st.start_pos.x).natAbs < 2 ∨
     ((snapPoint st p).y - st.start_pos.y).natAbs < 2 →
      (mouseReleaseLeft st p).2 =
        [RSAction.hideSurface,
         RSAction.deferEmit 50 RegionEvent.cancelledEvent]) :=
  mouseReleaseLeft_cases st p

/-- Witness for C2 at the anchor `(10, 10)`: releasing at `(12, 110)`
(deltas 2 and 100) confirms with the spanned rectangle, while releasing
at `(11, 110)` (delta 1) cancels. -/
theorem c2_witness :
    (mouseReleaseLeft demoRegionState ⟨12, 110⟩).2 =
      [RSAction.hideSurface,
       RSAction.deferEmit 50 (RegionEvent.regionSelected ⟨10, 10, 12, 110⟩)] ∧
    (mouseReleaseLeft demoRegionState ⟨11, 110⟩).2 =
      [RSAction.hideSurface,
       RSAction.deferEmit 50 RegionEvent.cancelledEvent] := by
  constructor
  · exact ((c2_release_confirm_iff_min_size demoRegionState ⟨12, 110⟩).1
      (by decide)).trans (by decide)
  · exact (c2_release_confirm_iff_min_size demoRegionState ⟨11, 110⟩).2 (by decide)

/-- C5: with snapping enabled, `_snap_point` returns on each axis the
first entry of that axis's Snap Index within the 8 px tolerance or the
input coordinate unchanged (the characterization `axisFirstWithin` is
stated from the spec's words); the X result depends only on the vertical
edge list and the input X (and symmetrically for Y), so a point may snap
on X only, Y only, both, or neither, and a non-snapped axis passes
through unchanged. -/
theorem c5_snap_point_axis_independent (st : RegionState) (p : QPoint)
    (hen : st.snap_enabled = true) :
    snapPoint st p =
      ⟨axisFirstWithin st.snap_edges_v p.x, axisFirstWithin st.snap_edges_h p.y⟩ ∧
    ((∀ e ∈ st.snap_edges_v, ¬((p.x - e).natAbs ≤ 8)) →
      (snapPoint st p).x = p.x) ∧
    ((∀ e ∈ st.snap_edges_h, ¬((p.y - e).natAbs ≤ 8)) →
      (snapPoint st p).y = p.y) := by
  have hmain : snapPoint st p =
      ⟨axisFirstWithin st.snap_edges_v p.x, axisFirstWithin st.snap_edges_h p.y⟩ := by
    unfold snapPoint
    rw [hen]
    simp [snapScan_getD_eq_axisFirstWithin]
  refine ⟨hmain, ?_, ?_⟩
  · intro hnone
    rw [hmain]
    show axisFirstWithin st.snap_edges_v p.x = p.x
    unfold axisFirstWithin
    rw [List.find?_eq_none.mpr (by simpa using hnone)]
  · intro hnone
    rw [hmain]
    show axisFirstWithin st.snap_edges_h p.y = p.y
    unfold axisFirstWithin
    rw [List.find?_eq_none.mpr (by simpa using hnone)]

/-- Witness for C5: with one vertical edge at 100 and no horizontal
edges, the point `(97, 60)` snaps to `(100, 60)`: X snaps to the first
in-tolerance entry, Y passes through unchanged. -/
theorem c5_witness :
    snapPoint snapRegionState ⟨97, 60⟩ =
      ⟨axisFirstWithin [100] 97, axisFirstWithin [] 60⟩ ∧
    snapPoint snapRegionState ⟨97, 60⟩ = ⟨100, 60⟩ := by
  have h := c5_snap_point_axis_independent snapRegionState ⟨97, 60⟩ (by decide)
  exact ⟨h.1, h.1.trans (by decide)⟩

/-- C4 counterexample: with a vertical snap edge at `x = 100`, pressing
the primary button at `(103, 50)` stores the snapped anchor `(100, 50)`,
not the raw button-down position, and the later emitted selection's
anchor corner is `(100, 50) ≠ (103, 50)`.  So the claim that the anchor
point is never snapped (and that the emitted anchor corner equals the raw
button-down position) is false. -/
theorem c4_counterexample :
    (mousePressLeft snapRegionState ⟨103, 50⟩).start_pos ≠ ⟨103, 50⟩ ∧
    (mousePressLeft snapRegionState ⟨103, 50⟩).start_pos = ⟨100, 50⟩ ∧
    (mouseReleaseLeft (mousePressLeft snapRegionState ⟨103, 50⟩) ⟨200, 250⟩).2 =
      [RSAction.hideSurface,
       RSAction.deferEmit 50 (RegionEvent.regionSelected ⟨100, 50, 200, 250⟩)] := by
  decide

/-- C4 (amended): the anchor is snapped exactly once, at button-down;
pointer moves re-snap only the moving endpoint and never change the
anchor, so after a press and any sequence of moves the selection's anchor
equals the snapped (not raw) button-down position. -/
theorem c4_anchor_snapped_once (st : RegionState) (p : QPoint)
    (moves : List QPoint) :
    (mousePressLeft st p).start_pos = snapPoint st p ∧
    (moves.foldl mouseMove (mousePressLeft st p)).start_pos = snapPoint st p ∧
    (∀ st1 : RegionState, ∀ q : QPoint,
      (mouseMove st1 q).start_pos = st1.start_pos) ∧
    (∀ st1 : RegionState, ∀ q : QPoint, st1.selecting = true →
      (mouseMove st1 q).end_pos = snapPoint st1 q) := by
  refine ⟨rfl, (foldl_mouseMove_start_pos moves _), ?_, ?_⟩
  · intro st1 q
    exact mouseMove_start_pos st1 q
  · intro st1 q hsel
    simp [mouseMove, hsel, snapPoint]

/-- Witness for C4 at the press `(103, 50)` with an edge at 100 and one
subsequent move: the anchor stays at the snapped `(100, 50)`, and the
move re-snaps only the moving endpoint. -/
theorem c4_witness :
    (([⟨150, 60⟩] : List QPoint).foldl mouseMove
        (mousePressLeft snapRegionState ⟨103, 50⟩)).start_pos = ⟨100, 50⟩ ∧
    (mouseMove (mousePressLeft snapRegionState ⟨103, 50⟩) ⟨96, 60⟩).end_pos =
      ⟨100, 60⟩ := by
  have h := c4_anchor_snapped_once snapRegionState ⟨103, 50⟩ [⟨150, 60⟩]
  refine ⟨h.2.1.trans (by decide), ?_⟩
  exact (h.2.2.2 (mousePressLeft snapRegionState ⟨103, 50⟩) ⟨96, 60⟩
    (by decide)).trans (by decide)

/-- C1 counterexample: a confirmed drag from `(10, 10)` to `(100, 100)`
emits the overlay-local rectangle `(10, 10)-(100, 100)` itself; for a
virtual desktop whose origin offset is `(-1920, 0)` the spec's
origin-translated rectangle differs from it, so the emission is not
translated to virtual-desktop coordinates by adding the Snapshot's origin
offset. -/
theorem c1_counterexample :
    (mouseReleaseLeft (mousePressLeft plainRegionState ⟨10, 10⟩) ⟨100, 100⟩).2 =
      [RSAction.hideSurface,
       RSAction.deferEmit 50 (RegionEvent.regionSelected ⟨10, 10, 100, 100⟩)] ∧
    specVirtualDesktopEmission ⟨-1920, 0⟩ ⟨10, 10, 100, 100⟩ ≠
      ⟨10, 10, 100, 100⟩ := by
  decide

/-- C1 (amended): a release meeting the minimum-size invariant confirms
and emits the selection rectangle in overlay-local (snapshot) coordinates
— which coincide with the spec's origin-translated virtual-desktop
coordinates exactly when the origin offset is `(0, 0)` — and in the
spec's two-monitor scenario (virtual-desktop origin `(0, 0)`), a drag
from local `(1930, 10)` to `(2000, 100)` yields, for every Snap Index, an
emitted rectangle with `x ≥ 1920`. -/
theorem c1_region_emit_local_and_scenario :
    (∀ st : RegionState, ∀ p : QPoint,
      2 ≤ ((snapPoint st p).x - st.start_pos.x).natAbs →
      2 ≤ ((snapPoint st p).y - st.start_pos.y).natAbs →
      (mouseReleaseLeft st p).2 =
        [RSAction.hideSurface,
         RSAction.deferEmit 50 (RegionEvent.regionSelected
           (specVirtualDesktopEmission ⟨0, 0⟩
             ⟨min st.start_pos.x (snapPoint st p).x,
              min st.start_pos.y (snapPoint st p).y,
              max st.start_pos.x (snapPoint st p).x,
              max st.start_pos.y (snapPoint st p).y⟩))]) ∧
    (∀ ev eh : List Int, ∃ r : QRect,
      (mouseReleaseLeft
        (mousePressLeft (scenarioRegionState ev eh) ⟨1930, 10⟩) ⟨2000, 100⟩).2 =
        [RSAction.hideSurface,
         RSAction.deferEmit 50 (RegionEvent.regionSelected r)] ∧
      1920 ≤ r.x1) := by
  constructor
  · intro st p hx hy
    have h := (mouseReleaseLeft_cases st p).1 ⟨hx, hy⟩
    rw [h]
    simp [specVirtualDesktopEmission, QRect.translated]
  · intro ev eh
    have hsd := snapPoint_dist (scenarioRegionState ev eh) ⟨1930, 10⟩
    have hed :=
      snapPoint_dist (mousePressLeft (scenarioRegionState ev eh) ⟨1930, 10⟩)
        ⟨2000, 100⟩
    have hs : (mousePressLeft (scenarioRegionState ev eh) ⟨1930, 10⟩).start_pos =
        snapPoint (scenarioRegionState ev eh) ⟨1930, 10⟩ := rfl
    dsimp only at hsd hed
    refine ⟨_, (mouseReleaseLeft_cases
      (mousePressLeft (scenarioRegionState ev eh) ⟨1930, 10⟩) ⟨2000, 100⟩).1
        ⟨?_, ?_⟩, ?_⟩
    · rw [hs]
      omega
    · rw [hs]
      omega
    · show 1920 ≤ min _ _
      rw [hs]
      omega

/-- Witness for C1: the emitted rectangle of the drag `(10,10)-(12,110)`
equals the zero-origin spec translation of the local rectangle, and with
no snap edges the scenario drag confirms with `x ≥ 1920`. -/
theorem c1_witness :
    (mouseReleaseLeft demoRegionState ⟨12, 110⟩).2 =
      [RSAction.hideSurface,
       RSAction.deferEmit 50 (RegionEvent.regionSelected
         (specVirtualDesktopEmission ⟨0, 0⟩ ⟨10, 10, 12, 110⟩))] ∧
    (∃ r : QRect,
      (mouseReleaseLeft
        (mousePressLeft (scenarioRegionState [] []) ⟨1930, 10⟩) ⟨2000, 100⟩).2 =
        [RSAction.hideSurface,
         RSAction.deferEmit 50 (RegionEvent.regionSelected r)] ∧
      1920 ≤ r.x1) := by
  constructor
  · exact (c1_region_emit_local_and_scenario.1 demoRegionState ⟨12, 110⟩
      (by decide) (by decide)).trans (by decide)
  · exact c1_region_emit_local_and_scenario.2 [] []

/-! ## Rectangle Animator theorems -/

theorem tick_formula (a : RectAnimator) (now : ℚ) (ha : a.active = true)
    (hd : 0 < a.duration) (hn : a.start_time ≤ now) :
    (a.tick now).1.current_rect =
      (if 1 ≤ specClampedT (now - a.start_time) a.duration then a.end_rect
       else specLerpRect a.start_rect a.end_rect
         (specEasedProgress (now - a.start_time) a.duration)) ∧
    ((a.tick now).1.active = false ↔
      1 ≤ specClampedT (now - a.start_time) a.duration) ∧
    (a.tick now).2 = true := by
  have hmax : max 0 ((now - a.start_time) / a.duration) =
      (now - a.start_time) / a.duration :=
    max_eq_right (div_nonneg (by linarith) hd.le)
  have hct : specClampedT (now - a.start_time) a.duration =
      min 1 ((now - a.start_time) / a.duration) := by
    unfold specClampedT
    rw [hmax]
  have hease : specEasedProgress (now - a.start_time) a.duration =
      RectAnimator.quintic_ease_out
        (min 1 ((now - a.start_time) / a.duration)) := by
    unfold RectAnimator.quintic_ease_out specEasedProgress
    rw [hct]
    ring
  rw [hct]
  unfold RectAnimator.tick
  rw [ha]
  by_cases h1 : 1 ≤ min 1 ((now - a.start_time) / a.duration)
  · simp [h1]
  · simp [h1, ha, hease, specLerpRect, RectAnimator.quintic_ease_out]

/-- C3: for the animator with start `(0,0,0,0)`, end `(10,10,100,100)`
and duration 700 ms, a tick at elapsed 0 yields the start rectangle, a
tick at any elapsed time `≥ 700 ms` yields exactly the end rectangle and
deactivates, and a tick at 350 ms yields a rectangle strictly between
start and end on every field; in general every tick of an active
animator sets the current rectangle to the per-edge linear interpolation
with eased progress `1 − (1 − t)^5`, `t` being elapsed over duration
clamped to `[0, 1]` (snapping exactly to the target and deactivating
once `t` reaches 1). -/
theorem c3_animator_tick_spec :
    ((demoAnimator.tick 0).1.current_rect = ⟨0, 0, 0, 0⟩ ∧
     (demoAnimator.tick 0).2 = true) ∧
    (∀ el : ℚ, 7/10 ≤ el →
      (demoAnimator.tick el).1.current_rect = ⟨10, 10, 100, 100⟩ ∧
      (demoAnimator.tick el).1.active = false) ∧
    (0 < ((demoAnimator.tick (35/100)).1.current_rect).x ∧
     ((demoAnimator.tick (35/100)).1.current_rect).x < 10 ∧
     0 < ((demoAnimator.tick (35/100)).1.current_rect).y ∧
     ((demoAnimator.tick (35/100)).1.current_rect).y < 10 ∧
     0 < ((demoAnimator.tick (35/100)).1.current_rect).w ∧
     ((demoAnimator.tick (35/100)).1.current_rect).w < 100 ∧
     0 < ((demoAnimator.tick (35/100)).1.current_rect).h ∧
     ((demoAnimator.tick (35/100)).1.current_rect).h < 100) ∧
    (∀ a : RectAnimator, ∀ now : ℚ, a.active = true → 0 < a.duration →
      a.start_time ≤ now →
      (a.tick now).1.current_rect =
        (if 1 ≤ specClampedT (now - a.start_time) a.duration then a.end_rect
         else specLerpRect a.start_rect a.end_rect
           (specEasedProgress (now - a.start_time) a.duration)) ∧
      ((a.tick now).1.active = false ↔
        1 ≤ specClampedT (now - a.start_time) a.duration)) := by
  have hd : (0 : ℚ) < demoAnimator.duration := by norm_num [demoAnimator]
  have h0 := tick_formula demoAnimator 0 rfl hd (by norm_num [demoAnimator])
  have hct0 : specClampedT ((0 : ℚ) - demoAnimator.start_time)
      demoAnimator.duration = 0 := by
    norm_num [specClampedT, min_def, max_def, demoAnimator]
  have h35 := tick_formula demoAnimator (35/100) rfl hd
    (by norm_num [demoAnimator])
  have hct35 : specClampedT ((35 : ℚ)/100 - demoAnimator.start_time)
      demoAnimator.duration = 1/2 := by
    norm_num [specClampedT, min_def, max_def, demoAnimator]
  have hct0b : specClampedT (0 : ℚ) ((7 : ℚ)/10) = 0 := by
    norm_num [specClampedT, min_def, max_def]
  have hct35b : specClampedT ((7 : ℚ)/20) ((7 : ℚ)/10) = 1/2 := by
    norm_num [specClampedT, min_def, max_def]
  have hcur35 : (demoAnimator.tick (35/100)).1.current_rect =
      ⟨155/16, 155/16, 775/8, 775/8⟩ := by
    rw [h35.1, if_neg (by rw [hct35]; norm_num)]
    norm_num [specLerpRect, specEasedProgress, hct35, hct35b, demoAnimator]
  refine ⟨⟨?_, h0.2.2⟩, ?_, ?_,
    fun a now ha hdd hn =>
      ⟨(tick_formula a now ha hdd hn).1, (tick_formula a now ha hdd hn).2.1⟩⟩
  · rw [h0.1, if_neg (by rw [hct0]; norm_num)]
    norm_num [specLerpRect, specEasedProgress, hct0, hct0b, demoAnimator]
  · intro el hel
    have h := tick_formula demoAnimator el rfl hd
      (by show demoAnimator.start_time ≤ el; norm_num [demoAnimator]; linarith)
    have hq : (1 : ℚ) ≤ (el - demoAnimator.start_time) / demoAnimator.duration := by
      show (1 : ℚ) ≤ (el - 0) / (7/10)
      rw [le_div_iff₀ (by norm_num)]
      linarith
    have hct : 1 ≤ specClampedT (el - demoAnimator.start_time)
        demoAnimator.duration := by
      unfold specClampedT
      rw [max_eq_right (by linarith), min_eq_left hq]
    refine ⟨?_, h.2.1.mpr hct⟩
    rw [h.1, if_pos hct]
    rfl
  · rw [hcur35]
    norm_num

/-- Witness for C3 at elapsed 1 s (`≥ 700 ms`): the tick returns exactly
the end rectangle and deactivates. -/
theorem c3_witness :
    (demoAnimator.tick 1).1.current_rect = ⟨10, 10, 100, 100⟩ ∧
    (demoAnimator.tick 1).1.active = false :=
  c3_animator_tick_spec.2.1 1 (by norm_num)

/-- C10 counterexample: on a freshly initialized animator (empty current
rectangle), `animate_to (1,2,3,4)` leaves `start_rect` at its initial
zero value instead of initializing it to the new target, while `current`
and `end` do become the target and no animation starts.  So the claim
that retargeting initializes start, end, and current all to `newEnd` is
false in its `start` part. -/
theorem c10_counterexample :
    ((RectAnimator.init 700).animate_to ⟨1, 2, 3, 4⟩ 0).start_rect ≠ ⟨1, 2, 3, 4⟩ ∧
    ((RectAnimator.init 700).animate_to ⟨1, 2, 3, 4⟩ 0).start_rect = ⟨0, 0, 0, 0⟩ ∧
    ((RectAnimator.init 700).animate_to ⟨1, 2, 3, 4⟩ 0).current_rect = ⟨1, 2, 3, 4⟩ ∧
    ((RectAnimator.init 700).animate_to ⟨1, 2, 3, 4⟩ 0).end_rect = ⟨1, 2, 3, 4⟩ ∧
    ((RectAnimator.init 700).animate_to ⟨1, 2, 3, 4⟩ 0).active = false := by
  decide

/-- C10 (amended): while the current rectangle is empty, `animate_to`
sets only `current` and `end` to the new target (leaving `start` and the
inactive flag untouched, so no motion occurs); and when the current
rectangle is non-empty and the target equals the current end rectangle,
the entire animator state is left unchanged and no new animation starts,
making repeated retargeting to the same rectangle idempotent. -/
theorem c10_animate_to_spec :
    (∀ a : RectAnimator, ∀ target : QRectF, ∀ now : ℚ,
      a.current_rect.isEmptyF = true →
      a.animate_to target now =
        { a with current_rect := target, end_rect := target }) ∧
    (∀ a : RectAnimator, ∀ target : QRectF, ∀ now : ℚ,
      a.current_rect.isEmptyF = false → target = a.end_rect →
      a.animate_to target now = a) := by
  constructor
  · intro a target now h
    unfold RectAnimator.animate_to
    simp [h]
  · intro a target now h1 h2
    unfold RectAnimator.animate_to
    simp [h1, h2]

/-- Witness for C10: the fresh-animator initialization at `(1,2,3,4)` and
the no-op retarget of a non-empty animator to its own end rectangle. -/
theorem c10_witness :
    (RectAnimator.init 700).animate_to ⟨1, 2, 3, 4⟩ 0 =
      { RectAnimator.init 700 with
          current_rect := ⟨1, 2, 3, 4⟩, end_rect := ⟨1, 2, 3, 4⟩ } ∧
    ({ demoAnimator with current_rect := ⟨0, 0, 5, 5⟩ } : RectAnimator).animate_to
        ⟨10, 10, 100, 100⟩ 3 =
      { demoAnimator with current_rect := ⟨0, 0, 5, 5⟩ } :=
  ⟨c10_animate_to_spec.1 _ _ _ (by decide),
   c10_animate_to_spec.2 _ _ _ (by decide) (by decide)⟩

/-! ## Window Picker cache and hit-testing lemmas -/

theorem cacheLookup_remove_self (c : List (Nat × List WinNode)) (k : Nat) :
    cacheLookup (cacheRemove c k) k = none := by
  unfold cacheLookup
  rw [List.find?_eq_none.mpr]
  · rfl
  · intro kv hkv
    have hmem := List.of_mem_filter hkv
    simp at hmem ⊢
    exact hmem

theorem cacheLookup_cons_ne (q : Nat) (cs : List WinNode)
    (c : List (Nat × List WinNode)) (k : Nat) (h : q ≠ k) :
    cacheLookup ((q, cs) :: c) k = cacheLookup c k := by
  unfold cacheLookup
  simp [List.find?, h]

theorem find_window_at_state (h : Hier) (st : PickerState) (sx sy : Int) :
    (PickerState.find_window_at h st sx sy).2.1 = st ∨
    (∃ parent rest, st.parent_stack = parent :: rest ∧
      (PickerState.find_window_at h st sx sy).2.1 =
        { st with child_cache :=
            (parent, (h.children parent).filter
              (fun c => c.2.width > 2 && c.2.height > 2)) :: st.child_cache }) := by
  unfold PickerState.find_window_at
  cases hps : st.parent_stack with
  | nil =>
    cases hf : st.top_windows.find? (fun nr => nr.2.containsPt sx sy) <;> simp
  | cons parent rest =>
    unfold PickerState.enum_direct_children
    cases hc : cacheLookup st.child_cache parent with
    | some cs =>
      cases hf : cs.find? (fun nr => nr.2.containsPt sx sy) <;> simp [hc, hf]
    | none =>
      cases hf : ((h.children parent).filter
          (fun c => c.2.width > 2 && c.2.height > 2)).find?
            (fun nr => nr.2.containsPt sx sy) <;>
        simp [hc, hf] <;> exact Or.inr hps

theorem update_highlight_cache (h : Hier) (now : ℚ) (st : PickerState) :
    (PickerState.update_highlight h now st).child_cache =
      (PickerState.find_window_at h st (st.current_pos.x + st.desktop_offset.x)
        (st.current_pos.y + st.desktop_offset.y)).2.1.child_cache := by
  unfold PickerState.update_highlight
  dsimp only
  split_ifs <;> rfl

theorem update_highlight_cache_none (h : Hier) (now : ℚ) (st : PickerState)
    (k : Nat)
    (hk : ∀ parent rest, st.parent_stack = parent :: rest → parent ≠ k)
    (hnone : cacheLookup st.child_cache k = none) :
    cacheLookup (PickerState.update_highlight h now st).child_cache k = none := by
  rw [update_highlight_cache]
  rcases find_window_at_state h st (st.current_pos.x + st.desktop_offset.x)
      (st.current_pos.y + st.desktop_offset.y) with he | ⟨parent, rest, hps, he⟩
  · rw [he]
    exact hnone
  · rw [he]
    exact (cacheLookup_cons_ne parent _ _ k (hk parent rest hps)).trans hnone

theorem find_window_at_root_none (h : Hier) (st : PickerState) (sx sy : Int)
    (hps : st.parent_stack = [])
    (hf : st.top_windows.find? (fun nr => nr.2.containsPt sx sy) = none) :
    PickerState.find_window_at h st sx sy = ((0, QRect.null), st, false) := by
  unfold PickerState.find_window_at
  simp [hps, hf]

theorem find_window_at_root_some (h : Hier) (st : PickerState) (sx sy : Int)
    (nr : WinNode) (hps : st.parent_stack = [])
    (hf : st.top_windows.find? (fun x => x.2.containsPt sx sy) = some nr) :
    PickerState.find_window_at h st sx sy = (nr, st, false) := by
  unfold PickerState.find_window_at
  simp [hps, hf]

theorem find_window_at_child_some (h : Hier) (st : PickerState) (sx sy : Int)
    (parent : Nat) (rest : List Nat) (cs : List WinNode) (nr : WinNode)
    (hps : st.parent_stack = parent :: rest)
    (hc : cacheLookup st.child_cache parent = some cs)
    (hf : cs.find? (fun x => x.2.containsPt sx sy) = some nr) :
    PickerState.find_window_at h st sx sy = (nr, st, false) := by
  unfold PickerState.find_window_at PickerState.enum_direct_children
  simp [hps, hc, hf]

theorem find_window_at_child_none (h : Hier) (st : PickerState) (sx sy : Int)
    (parent : Nat) (rest : List Nat) (cs : List WinNode)
    (hps : st.parent_stack = parent :: rest)
    (hc : cacheLookup st.child_cache parent = some cs)
    (hf : cs.find? (fun x => x.2.containsPt sx sy) = none) :
    PickerState.find_window_at h st sx sy =
      ((parent, h.winRect parent), st, false) := by
  unfold PickerState.find_window_at PickerState.enum_direct_children
  simp [hps, hc, hf]

theorem update_highlight_hwnd (h : Hier) (now : ℚ) (st : PickerState)
    (hw : Nat) (r : QRect)
    (hfw : PickerState.find_window_at h st
        (st.current_pos.x + st.desktop_offset.x)
        (st.current_pos.y + st.desktop_offset.y) = ((hw, r), st, false))
    (hhw : hw ≠ 0) (hr : 0 < r.width) :
    (PickerState.update_highlight h now st).current_hwnd = hw := by
  unfold PickerState.update_highlight
  dsimp only
  rw [hfw]
  dsimp only
  rw [if_pos ⟨hhw, hr⟩]
  by_cases he : hw ≠ st.current_hwnd
  · rw [if_pos he]
  · rw [if_neg he]
    exact (not_not.mp he).symm

theorem update_highlight_clear (h : Hier) (now : ℚ) (st : PickerState)
    (hfw : PickerState.find_window_at h st
        (st.current_pos.x + st.desktop_offset.x)
        (st.current_pos.y + st.desktop_offset.y) = ((0, QRect.null), st, false)) :
    (PickerState.update_highlight h now st).current_hwnd = 0 ∧
    (PickerState.update_highlight h now st).current_rect = QRect.null := by
  unfold PickerState.update_highlight
  dsimp only
  rw [hfw]
  dsimp only
  rw [if_neg (by simp), if_pos rfl]
  exact ⟨rfl, rfl⟩

/-- C6: drilling up pops the drill stack and evicts the popped parent
from the child cache, so a subsequent enumeration of that parent runs the
Window Hierarchy Source afresh; whereas enumerating a parent still
present in the cache returns the cached child list with no source call
and no state change.  (The hypothesis `hne` excludes the degenerate
self-nested stack where the popped handle is also the new stack top, in
which case the re-run hit-test would re-enumerate it immediately.) -/
theorem c6_cache_evict_and_reuse (h : Hier) (now : ℚ) (st : PickerState)
    (parent : Nat) (rest : List Nat)
    (hstack : st.parent_stack = parent :: rest)
    (hne : ∀ q, rest.head? = some q → q ≠ parent) :
    (∀ st1 : PickerState, ∀ q : Nat, ∀ cs : List WinNode,
      cacheLookup st1.child_cache q = some cs →
      PickerState.enum_direct_children h st1 q = (cs, st1, false)) ∧
    cacheLookup (PickerState.page_up h now st).child_cache parent = none ∧
    (PickerState.enum_direct_children h
      (PickerState.page_up h now st) parent).2.2 = true ∧
    (PickerState.enum_direct_children h
      (PickerState.page_up h now st) parent).1 =
      (h.children parent).filter (fun c => c.2.width > 2 && c.2.height > 2) := by
  have hreuse : ∀ st1 : PickerState, ∀ q : Nat, ∀ cs : List WinNode,
      cacheLookup st1.child_cache q = some cs →
      PickerState.enum_direct_children h st1 q = (cs, st1, false) := by
    intro st1 q cs hc
    unfold PickerState.enum_direct_children
    rw [hc]
  have hnone : cacheLookup (PickerState.page_up h now st).child_cache parent
      = none := by
    unfold PickerState.page_up
    simp only [hstack]
    apply update_highlight_cache_none
    · intro p2 r2 hp2
      simp only at hp2
      exact hne p2 (by rw [hp2]; rfl)
    · exact cacheLookup_remove_self st.child_cache parent
  refine ⟨hreuse, hnone, ?_, ?_⟩
  · unfold PickerState.enum_direct_children
    rw [hnone]
  · unfold PickerState.enum_direct_children
    rw [hnone]

/-- Witness for C6 at the drilled demo picker: paging up evicts window
1's cached children, the next enumeration re-runs the source afresh, and
an enumeration while the entry is still cached reuses it without a
source call. -/
theorem c6_witness :
    cacheLookup (PickerState.page_up demoHier 0 demoDrilledState).child_cache 1
      = none ∧
    (PickerState.enum_direct_children demoHier
      (PickerState.page_up demoHier 0 demoDrilledState) 1).2.2 = true ∧
    PickerState.enum_direct_children demoHier demoDrilledState 1 =
      (demoChildren, demoDrilledState, false) := by
  have h := c6_cache_evict_and_reuse demoHier 0 demoDrilledState 1 [] rfl
    (by intro q hq; simp at hq)
  exact ⟨h.2.1, h.2.2.1, h.1 demoDrilledState 1 demoChildren (by decide)⟩

/-- C7: for every pointer position, `_update_highlight` behaves as
follows.  At the root drill level with no top-level node containing the
point, the highlight clears.  At a non-root level where no cached child
rectangle contains the point, the highlighted node becomes the parent
itself (given the parent's live rectangle is non-degenerate, as the
Window Hierarchy Source guarantees for real windows).  Otherwise the
highlight becomes the first node in candidate order whose rectangle
contains the point (candidate handles are nonzero and their stored
rectangles positive-width, as the enumeration filters guarantee). -/
theorem c7_hit_test_highlight (h : Hier) (now : ℚ) (st : PickerState) :
    (st.parent_stack = [] →
      (st.top_windows.find? (fun nr => nr.2.containsPt
        (st.current_pos.x + st.desktop_offset.x)
        (st.current_pos.y + st.desktop_offset.y)) = none) →
      (PickerState.update_highlight h now st).current_hwnd = 0 ∧
      (PickerState.update_highlight h now st).current_rect = QRect.null) ∧
    (∀ parent rest cs, st.parent_stack = parent :: rest →
      cacheLookup st.child_cache parent = some cs →
      (cs.find? (fun nr => nr.2.containsPt
        (st.current_pos.x + st.desktop_offset.x)
        (st.current_pos.y + st.desktop_offset.y)) = none) →
      parent ≠ 0 → 0 < (h.winRect parent).width →
      (PickerState.update_highlight h now st).current_hwnd = parent) ∧
    (∀ hw r, st.parent_stack = [] →
      st.top_windows.find? (fun nr => nr.2.containsPt
        (st.current_pos.x + st.desktop_offset.x)
        (st.current_pos.y + st.desktop_offset.y)) = some (hw, r) →
      hw ≠ 0 → 0 < r.width →
      (PickerState.update_highlight h now st).current_hwnd = hw) ∧
    (∀ parent rest cs hw r, st.parent_stack = parent :: rest →
      cacheLookup st.child_cache parent = some cs →
      cs.find? (fun nr => nr.2.containsPt
        (st.current_pos.x + st.desktop_offset.x)
        (st.current_pos.y + st.desktop_offset.y)) = some (hw, r) →
      hw ≠ 0 → 0 < r.width →
      (PickerState.update_highlight h now st).current_hwnd = hw) := by
  refine ⟨?_, ?_, ?_, ?_⟩
  · intro hps hf
    exact update_highlight_clear h now st
      (find_window_at_root_none h st _ _ hps hf)
  · intro parent rest cs hps hc hf hp hw
    exact update_highlight_hwnd h now st parent (h.winRect parent)
      (find_window_at_child_none h st _ _ parent rest cs hps hc hf) hp hw
  · intro hw r hps hf hhw hr
    exact update_highlight_hwnd h now st hw r
      (find_window_at_root_some h st _ _ (hw, r) hps hf) hhw hr
  · intro parent rest cs hw r hps hc hf hhw hr
    exact update_highlight_hwnd h now st hw r
      (find_window_at_child_some h st _ _ parent rest cs (hw, r) hps hc hf) hhw hr

/-- Witness for C7: in the drilled demo picker with the cursor at
`(200, 200)` (outside both cached children) the highlight falls back to
the parent window 1; at the root level with the cursor at `(500, 500)`
(outside the only top-level node) the highlight clears. -/
theorem c7_witness :
    (PickerState.update_highlight demoHier 0 demoFallbackState).current_hwnd
      = 1 ∧
    (PickerState.update_highlight demoHier 0 demoMissState).current_hwnd
      = 0 := by
  have h1 := c7_hit_test_highlight demoHier 0 demoFallbackState
  have h2 := c7_hit_test_highlight demoHier 0 demoMissState
  exact ⟨h1.2.1 1 [] demoChildren rfl (by decide) (by decide) (by decide)
      (by decide),
    (h2.1 rfl (by decide)).1⟩

/-! ## Orchestrator and teardown theorems -/

theorem captureCount_append (l1 l2 : List OrchAction) :
    captureCount (l1 ++ l2) = captureCount l1 + captureCount l2 := by
  unfold captureCount
  rw [List.filter_append, List.length_append]

theorem captureCount_round (s : Nat) : captureCount (modeSwitchRound s) = 0 := by
  simp [captureCount, modeSwitchRound, switch_to_window_mode,
    switch_to_region_mode, start_window_picker]

/-- C8: a capture session that starts in Region mode and performs any
number of Region → Window → Region mode-switch round trips calls
`captureSnapshot` exactly once, and every overlay constructed during the
session is handed that single session snapshot. -/
theorem c8_mode_switch_single_capture (s : Nat) (n : Nat) :
    captureCount (sessionTrace s n) = 1 ∧
    (∀ a ∈ sessionTrace s n, ∀ s1, constructedSnap a = some s1 → s1 = s) := by
  induction n with
  | zero =>
    refine ⟨by simp [sessionTrace, start_region_overlay, captureCount], ?_⟩
    intro a ha s1 hs1
    simp [sessionTrace, start_region_overlay] at ha
    rcases ha with rfl | rfl | rfl <;> simp [constructedSnap] at hs1
    exact hs1.symm
  | succ n ih =>
    refine ⟨?_, ?_⟩
    · show captureCount (sessionTrace s n ++ modeSwitchRound s) = 1
      rw [captureCount_append, ih.1, captureCount_round]
    · intro a ha s1 hs1
      rw [show sessionTrace s (n + 1) =
          sessionTrace s n ++ modeSwitchRound s from rfl,
        List.mem_append] at ha
      rcases ha with ha | ha
      · exact ih.2 a ha s1 hs1
      · simp [modeSwitchRound, switch_to_window_mode, switch_to_region_mode,
          start_window_picker] at ha
        rcases ha with rfl | rfl | rfl | rfl | rfl | rfl | rfl <;>
          simp [constructedSnap] at hs1 <;> exact hs1.symm

/-- Witness for C8 at snapshot id 7 with two full round trips: one
capture call, and a picker constructed mid-session carries snapshot 7. -/
theorem c8_witness :
    captureCount (sessionTrace 7 2) = 1 ∧
    (∀ s1, constructedSnap (OrchAction.constructWindowPicker 7) = some s1 →
      s1 = 7) := by
  have h := c8_mode_switch_single_capture 7 2
  exact ⟨h.1, h.2 (OrchAction.constructWindowPicker 7) (by decide)⟩

/-- C9: each of the Window Picker's terminal transitions — confirm by
left click or Enter/Return while the highlight rectangle is non-empty,
cancel by Escape or right click — first stops the animation timer, then
hides the overlay surface, and only afterwards emits the terminal event,
deferred by 50 ms (tens of milliseconds) rather than emitted
synchronously inside the input handler. -/
theorem c9_terminal_teardown_order (rr : QRect) (empt : Bool) :
    pickerMousePressActions MouseButton.leftButton false rr =
      [PickerAction.stopTimer, PickerAction.hideSurface,
       PickerAction.deferEmit 50 (PickerEvent.elementSelected rr)] ∧
    pickerMousePressActions MouseButton.rightButton empt rr =
      [PickerAction.stopTimer, PickerAction.hideSurface,
       PickerAction.deferEmit 50 PickerEvent.cancelledEvent] ∧
    pickerKeyPressActions PickerKey.keyEscape empt rr =
      [PickerAction.stopTimer, PickerAction.hideSurface,
       PickerAction.deferEmit 50 PickerEvent.cancelledEvent] ∧
    pickerKeyPressActions PickerKey.keyReturnOrEnter false rr =
      [PickerAction.stopTimer, PickerAction.hideSurface,
       PickerAction.deferEmit 50 (PickerEvent.elementSelected rr)] :=
  ⟨rfl, rfl, rfl, rfl⟩

end SwiftShot
